import Mathlib

/-!
Shallow embedding of `src/etcd/mod.rs`: the etcd image descriptor for a
container test harness. The module defines the `Etcd` descriptor (registry
path + version tag), its `Default` constructor, the `new` constructor, the
`name`/`tag` builders, the fixed launch-argument list (`EtcdArgs`), and the
readiness condition returned by the `Image` implementation.
-/

/-- `const DEFAULT_IMAGE_NAME: &str = "gcr.io/etcd-development/etcd"`. -/
def DEFAULT_IMAGE_NAME : String := "gcr.io/etcd-development/etcd"

/-- `const DEFAULT_IMAGE_TAG: &str = "v3.5.13"`. -/
def DEFAULT_IMAGE_TAG : String := "v3.5.13"

/-- `pub const ETCD_PORT: u16 = 2379` (fits in a `u16`, so a plain `Nat`). -/
def ETCD_PORT : Nat := 2379

/-- The descriptor `pub struct Etcd { name: String, tag: String }`. -/
structure Etcd where
  name : String
  tag : String

/-- `impl Default for Etcd`: both fields set to the built-in constants. -/
def Etcd.default : Etcd :=
  { name := DEFAULT_IMAGE_NAME, tag := DEFAULT_IMAGE_TAG }

/-- `Etcd::new(tag)`: the given tag, every other field from `Default`. -/
def Etcd.new (tag : String) : Etcd :=
  { Etcd.default with tag := tag }

/-- Builder `Etcd::name(self, name)`: overwrite the `name` field.
(Named `with_name` here because the field projection takes `Etcd.name`.) -/
def Etcd.with_name (self : Etcd) (name : String) : Etcd :=
  { self with name := name }

/-- Builder `Etcd::tag(self, tag)`: overwrite the `tag` field. -/
def Etcd.with_tag (self : Etcd) (tag : String) : Etcd :=
  { self with tag := tag }

/-- `pub struct EtcdArgs;` — a unit struct, no data. -/
structure EtcdArgs

/-- `ImageArgs::into_iterator` for `EtcdArgs`: the fixed launch-argument
vector, with the two URLs built from `ETCD_PORT` as in the `format!` calls. -/
def EtcdArgs.into_iterator (_ : EtcdArgs) : List String :=
  [ "etcd",
    "-advertise-client-urls",
    "http://127.0.0.1:" ++ toString ETCD_PORT,
    "-listen-client-urls",
    "http://0.0.0.0:" ++ toString ETCD_PORT ]

/-- The harness's `WaitFor` readiness conditions used by this module: a
message expected on the container's stdout or stderr stream. -/
inductive WaitFor where
  | message_on_stdout (message : String)
  | message_on_stderr (message : String)
deriving DecidableEq

/-- `Image::name` for `Etcd`: `self.name.clone()`. -/
def Etcd.image_name (self : Etcd) : String := self.name

/-- `Image::tag` for `Etcd`: `self.tag.clone()`. -/
def Etcd.image_tag (self : Etcd) : String := self.tag

/-- `Image::ready_conditions` for `Etcd`:
`vec![WaitFor::message_on_stderr("ready to serve client requests")]`. -/
def Etcd.ready_conditions (_ : Etcd) : List WaitFor :=
  [WaitFor.message_on_stderr "ready to serve client requests"]

/-- Modelled from the spec: the external container test harness (not part of
this repository) evaluates a readiness condition against the container's
standard-error stream; a `message_on_stderr` condition matches exactly when
the stream contains the literal substring, a stdout condition never matches
the stderr stream. -/
def WaitFor.matches_stderr (w : WaitFor) (stream : String) : Bool :=
  match w with
  | WaitFor.message_on_stderr m => decide (m.data <:+: stream.data)
  | WaitFor.message_on_stdout _ => false

/-- Expressions over the public constructors and builders of the module:
every descriptor reachable through `Etcd::default`, `Etcd::new`,
`Etcd::name` and `Etcd::tag` is the value of one such expression. -/
inductive Ctor where
  | create_default
  | create_with_tag (tag : String)
  | with_name (b : Ctor) (name : String)
  | with_tag (b : Ctor) (tag : String)

/-- Evaluate a constructor/builder expression to the descriptor it builds. -/
def Ctor.build : Ctor → Etcd
  | Ctor.create_default => Etcd.default
  | Ctor.create_with_tag t => Etcd.new t
  | Ctor.with_name b n => (Ctor.build b).with_name n
  | Ctor.with_tag b t => (Ctor.build b).with_tag t

/-- Whether every string argument appearing in the expression is non-empty. -/
def Ctor.argsNonempty : Ctor → Bool
  | Ctor.create_default => true
  | Ctor.create_with_tag t => decide (t ≠ "")
  | Ctor.with_name b n => Ctor.argsNonempty b && decide (n ≠ "")
  | Ctor.with_tag b t => Ctor.argsNonempty b && decide (t ≠ "")

/-- C1: for every descriptor, regardless of its registry-path and version-tag
field values, `EtcdArgs::into_iterator` returns exactly the five-element
string sequence `["etcd", "-advertise-client-urls",
"http://127.0.0.1:2379", "-listen-client-urls", "http://0.0.0.0:2379"]`,
in that order. -/
theorem launch_arguments_fixed (_d : Etcd) (a : EtcdArgs) :
    a.into_iterator =
      [ "etcd",
        "-advertise-client-urls",
        "http://127.0.0.1:2379",
        "-listen-client-urls",
        "http://0.0.0.0:2379" ] := by
  cases a
  decide

/-- C2: for every descriptor, `Etcd::ready_conditions` returns exactly one
readiness condition, namely the stderr-message condition with literal
message `"ready to serve client requests"`, and that condition matches a
stderr stream exactly when the stream contains that literal substring. -/
theorem ready_conditions_spec (d : Etcd) (s : String) :
    d.ready_conditions =
      [WaitFor.message_on_stderr "ready to serve client requests"] ∧
    ((WaitFor.message_on_stderr "ready to serve client requests").matches_stderr s
        = true ↔
      ∃ pre post, s = pre ++ "ready to serve client requests" ++ post) := by
  refine ⟨rfl, ?_⟩
  unfold WaitFor.matches_stderr
  rw [decide_eq_true_iff]
  constructor
  · rintro ⟨p, q, hpq⟩
    refine ⟨⟨p⟩, ⟨q⟩, String.ext ?_⟩
    simpa [String.data_append] using hpq.symm
  · rintro ⟨pre, post, hs⟩
    exact ⟨pre.data, post.data, by rw [hs]; simp [String.data_append]⟩

/-- C3: `Etcd::default` never fails and returns a descriptor whose `name`
field is `"gcr.io/etcd-development/etcd"` and whose `tag` field is
`"v3.5.13"`. -/
theorem create_default_spec :
    Etcd.default.name = "gcr.io/etcd-development/etcd" ∧
    Etcd.default.tag = "v3.5.13" :=
  ⟨rfl, rfl⟩

/-- C4: for every tag string `t`, `Etcd::new t` returns a descriptor whose
tag equals `t` and whose name equals the default registry path
`"gcr.io/etcd-development/etcd"`. -/
theorem create_with_tag_spec (t : String) :
    (Etcd.new t).tag = t ∧
    (Etcd.new t).name = "gcr.io/etcd-development/etcd" :=
  ⟨rfl, rfl⟩

/-- C5: for every descriptor `d` and name string `n`, the `name` builder
returns a descriptor whose name equals `n` and whose tag is `d`'s tag
unchanged; in particular `Etcd::default().name(n)` keeps the default tag
`"v3.5.13"`. -/
theorem with_name_spec (d : Etcd) (n : String) :
    (d.with_name n).name = n ∧
    (d.with_name n).tag = d.tag ∧
    (Etcd.default.with_name n).tag = "v3.5.13" :=
  ⟨rfl, rfl, rfl⟩

/-- C6: for every descriptor `d` and tag string `t`, the `tag` builder
returns a descriptor whose tag equals `t` and whose name is `d`'s name
unchanged. -/
theorem with_tag_spec (d : Etcd) (t : String) :
    (d.with_tag t).tag = t ∧
    (d.with_tag t).name = d.name :=
  ⟨rfl, rfl⟩

/-- C7 counterexample: it is not the case that every descriptor reachable
through the public constructors and builders has both fields non-empty:
`Etcd::new("")` yields an empty tag, since the code never validates its
string arguments. -/
theorem reachable_nonempty_cex :
    ¬ ∀ c : Ctor, (Ctor.build c).name ≠ "" ∧ (Ctor.build c).tag ≠ "" := by
  intro h
  exact (h (Ctor.create_with_tag "")).2 rfl

/-- C7 (amended): every descriptor reachable through the public constructors
and builders applied to non-empty string arguments has both the `name` and
the `tag` field non-empty. -/
theorem reachable_nonempty (c : Ctor) (h : Ctor.argsNonempty c = true) :
    (Ctor.build c).name ≠ "" ∧ (Ctor.build c).tag ≠ "" := by
  induction c with
  | create_default => exact ⟨by decide, by decide⟩
  | create_with_tag t =>
      refine ⟨?_, of_decide_eq_true h⟩
      show DEFAULT_IMAGE_NAME ≠ ""
      decide
  | with_name b n ih =>
      rw [Ctor.argsNonempty, Bool.and_eq_true, decide_eq_true_iff] at h
      exact ⟨h.2, (ih h.1).2⟩
  | with_tag b t ih =>
      rw [Ctor.argsNonempty, Bool.and_eq_true, decide_eq_true_iff] at h
      exact ⟨(ih h.1).1, h.2⟩

/-- C7 witness: a concrete reachable descriptor with non-empty arguments,
`Etcd::default().name("quay.io/coreos/etcd")`, has both fields non-empty. -/
theorem reachable_nonempty_witness :
    Ctor.argsNonempty (Ctor.with_name Ctor.create_default "quay.io/coreos/etcd")
      = true ∧
    ((Ctor.with_name Ctor.create_default "quay.io/coreos/etcd").build.name ≠ "" ∧
     (Ctor.with_name Ctor.create_default "quay.io/coreos/etcd").build.tag ≠ "") :=
  ⟨by decide, reachable_nonempty _ (by decide)⟩

/-- C8: every operation of the module — the constructors and builders (any
composition, as a `Ctor` expression), `into_iterator`, `ready_conditions`
and the `Image::name` / `Image::tag` accessors — is a total function
returning exactly one plain value on every input; none returns an
error/`Except` result (their embedded types are plain values). -/
theorem ops_total :
    (∀ c : Ctor, ∃! d : Etcd, Ctor.build c = d) ∧
    (∀ a : EtcdArgs, ∃! xs : List String, a.into_iterator = xs) ∧
    (∀ d : Etcd, ∃! ws : List WaitFor, d.ready_conditions = ws) ∧
    (∀ d : Etcd, ∃! s : String, d.image_name = s) ∧
    (∀ d : Etcd, ∃! s : String, d.image_tag = s) := by
  refine ⟨?_, ?_, ?_, ?_, ?_⟩ <;>
    exact fun x => ⟨_, rfl, fun y hy => hy.symm⟩

/-- C9: the module exposes `ETCD_PORT = 2379`, and the two URLs in the fixed
launch arguments are built from that same port: positions 2 and 4 of
`into_iterator` are `"http://127.0.0.1:" ++ toString ETCD_PORT` and
`"http://0.0.0.0:" ++ toString ETCD_PORT`, i.e. `"http://127.0.0.1:2379"`
and `"http://0.0.0.0:2379"`. -/
theorem etcd_port_spec (a : EtcdArgs) :
    ETCD_PORT = 2379 ∧
    a.into_iterator[2]? = some ("http://127.0.0.1:" ++ toString ETCD_PORT) ∧
    a.into_iterator[4]? = some ("http://0.0.0.0:" ++ toString ETCD_PORT) ∧
    "http://127.0.0.1:" ++ toString ETCD_PORT = "http://127.0.0.1:2379" ∧
    "http://0.0.0.0:" ++ toString ETCD_PORT = "http://0.0.0.0:2379" := by
  refine ⟨rfl, rfl, rfl, ?_, ?_⟩ <;> decide

/-- C10: the two builders commute and the later write to the same field
wins: `d.name(n).tag(t) = d.tag(t).name(n)` field-wise, and
`d.name(n1).name(n2) = d.name(n2)`. -/
theorem builders_commute (d : Etcd) (n t n1 n2 : String) :
    (d.with_name n).with_tag t = (d.with_tag t).with_name n ∧
    (d.with_name n1).with_name n2 = d.with_name n2 :=
  ⟨rfl, rfl⟩
